import Mathlib

/-!
Shallow embedding of the SOP-prompt pipeline (index.js, generateSOP.js,
config.js incl. fileUtils, services/promptService.js incl. geminiService).

External effects (HTTP fetch, the two language-model services, PDF parsing
and raw file-system writes) are modelled by per-record environment values;
the file system visible to the pipeline is an association list from paths
to file contents.  JS strings are modelled by Lean `String` (JS `substring`
counts UTF-16 code units, the model counts characters; no claim depends on
the difference).  JS `undefined`/`null` record fields are modelled by
`Option String` with `none` for absent.
-/

/-- File system: newest write first; `fsLookup` finds the newest, so a later
write to the same path overwrites. -/
abbrev FS : Type := List (String × String)

def fsLookup (fs : FS) (p : String) : Option String :=
  List.lookup p fs

def fsWrite (fs : FS) (p c : String) : FS :=
  (p, c) :: fs

/-- An application record, one CSV row (config.js `csvHeaders`).  `none`
models a JS `undefined` field; CSV-loaded blanks are `some ""`. -/
structure App where
  candidateName : String
  resumeFile : Option String
  courseInput : String
  courseName : Option String
  universityName : Option String
  promptPath : Option String
  sopPath : Option String
deriving DecidableEq, Repr

/-- JS truthiness of a string-or-undefined value: `undefined` and `""` are
falsy. -/
def jsTruthyOpt : Option String → Bool
  | none => false
  | some s => s != ""

/-- JS falsiness of a string-or-undefined value (used for `!x` checks). -/
def jsFalsyOpt (o : Option String) : Bool := !jsTruthyOpt o

/-- JS `s.includes(pat)` over char lists. -/
def hasInfixChars (pat : List Char) : List Char → Bool
  | [] => pat.isEmpty
  | c :: rest => pat.isPrefixOf (c :: rest) || hasInfixChars pat rest

/-- JS `s.includes(pat)`. -/
def strIncludes (s pat : String) : Bool :=
  hasInfixChars pat.data s.data

/-- Remainder of `l` after removing the prefix `pat`, or `none` when `pat`
is not a prefix of `l`. -/
def stripPre : List Char → List Char → Option (List Char)
  | [], l => some l
  | _ :: _, [] => none
  | p :: ps, c :: cs => if p = c then stripPre ps cs else none

/-- JS `s.replace(/pat/g, rep)` worker: left-to-right, non-overlapping;
the fuel argument (instantiated with the list length) only makes the
recursion structural, each step consumes at least one character. -/
def replaceAllGo (pat rep : List Char) : Nat → List Char → List Char
  | _, [] => []
  | 0, l => l
  | Nat.succ fuel, c :: rest =>
    match stripPre pat (c :: rest) with
    | some remainder =>
      if pat.isEmpty then c :: replaceAllGo pat rep fuel rest
      else rep ++ replaceAllGo pat rep fuel remainder
    | none => c :: replaceAllGo pat rep fuel rest

/-- JS `s.replace(/pat/g, rep)` for a literal pattern (core
`String.replace` is definitionally opaque to the kernel). -/
def jsReplaceAll (s pat rep : String) : String :=
  ⟨replaceAllGo pat.data rep.data s.data.length s.data⟩

/-- JS `s.trim()`: strip whitespace from both ends (structural model;
core `String.trim` is definitionally opaque to the kernel). -/
def jsTrim (s : String) : String :=
  ⟨((s.data.dropWhile Char.isWhitespace).reverse.dropWhile Char.isWhitespace).reverse⟩

/-- JS `s.startsWith(pre)` (structural model; core `String.startsWith`
is definitionally opaque to the kernel). -/
def jsStartsWith (s pre : String) : Bool :=
  pre.data.isPrefixOf s.data

/-- JS `s.substring(0, n)`. -/
def jsSubstring0 (s : String) (n : Nat) : String :=
  ⟨s.data.take n⟩

/-- Model of `path.join(dir, name)` for the simple relative components the
pipeline produces. -/
def pathJoin (dir name : String) : String := dir ++ "/" ++ name

/-- Model of `path.basename`: the component after the last `/`. -/
def basename (p : String) : String :=
  ⟨(p.data.reverse.takeWhile (fun c => c != '/')).reverse⟩

/-- config.js `paths.prompts` (`path.join` of the module directory and `prompts`); the
`__dirname` anchor is abstracted away. -/
def promptsDirPath : String := "prompts"

/-- generateSOP.js reads `config.paths.sops`, but config.js `paths` defines
only `data`, `csvFile`, `prompts` and `resumes`; the value is therefore the
JS `undefined`, modelled as `none`. -/
def configPathsSops : Option String := none

/-- fileUtils `sanitizeFileName`: collapse each whitespace run to `_`
(JS `replace(/\s+/g, '_')`); the `inWS` flag tracks whether the previous
character was part of a whitespace run. -/
def squashWS (inWS : Bool) : List Char → List Char
  | [] => []
  | c :: rest =>
    if c.isWhitespace then
      (if inWS then [] else ['_']) ++ squashWS true rest
    else
      c :: squashWS false rest

/-- fileUtils `sanitizeFileName`: drop the characters invalid in file names
(JS `replace(/[<>:"\/\\|?*]+/g, '')`). -/
def dropInvalidChars (l : List Char) : List Char :=
  l.filter (fun c => !(c ∈ ['<', '>', ':', '"', '/', '\\', '|', '?', '*']))

/-- fileUtils `sanitizeFileName(name)`; JS lowercases with `toLowerCase`,
modelled by `Char.toLower`. -/
def sanitizeFileName (name : String) : String :=
  if name = "" then "untitled"
  else ⟨(dropInvalidChars (squashWS false name.data)).map Char.toLower⟩

/-- Structured metadata returned by the extractor in the common case where
all four JSON fields are strings; this is what index.js consumes. -/
structure Metadata where
  course : String
  university : String
  country : String
  courseInfo : String
deriving DecidableEq, Repr

/-- Behaviour of the resume file system and PDF parser for one record. -/
inductive ResumeEnv where
  | fileMissing
  | parseError
  | ok (text : String)
deriving DecidableEq, Repr

/-- fileUtils `readResumeContent` (in config.js): `null` for an absent or
falsy filename, `null` when the PDF is missing, `null` when parsing throws
(both caught), otherwise the extracted text. -/
def readResumeContent (renv : ResumeEnv) (filename : Option String) : Option String :=
  match filename with
  | none => none
  | some f =>
    if f = "" then none
    else
      match renv with
      | .fileMissing => none
      | .parseError => none
      | .ok t => some t

/-- promptService `buildSOPPrompt` resume lead-in when resume text is
present (truthy). -/
def resumeSectionWith (resumeContent : String) : String :=
  "\n--- My Resume Information ---\n" ++ resumeContent ++
  "\n-----------------------------\n\nNow, using the above course details and my resume information, please generate a Statement of Purpose. Follow the structure below:\n"

/-- promptService `buildSOPPrompt` lead-in when resume text is absent or
empty (falsy). -/
def resumeSectionWithout : String :=
  "\nPlease take all the required details from the attached profile. It should be able to properly justify my course selection and align it with my past. Structure the SOP as per below:\n"

/-- promptService `buildSOPPrompt(metadata, resumeContent)`: the fixed
seven-paragraph prompt template.  The apostrophe and the curly quotes of
the source template are kept (`\x27` is the ASCII apostrophe). -/
def buildSOPPrompt (metadata : Metadata) (resumeContent : Option String) : String :=
  let resumeSection :=
    match resumeContent with
    | none => resumeSectionWithout
    | some rc => if rc = "" then resumeSectionWithout else resumeSectionWith rc
  "\nI am applying to the Master\x27s in " ++ metadata.course ++ " at " ++
  metadata.university ++ " in " ++ metadata.country ++ ".\n\n" ++
  resumeSection ++
  "\n1st Paragraph – Introduction: Write about how the " ++ metadata.course ++
  " industry is growing and from where I gained initial interest. Complete the paragraph by setting the context of why I want to apply for this course at this university.\n\n" ++
  "2nd Paragraph – Academic Journey: Explain my academic journey starting from the 10th. Go in chronological order and explain the transitions. In case of work experience, also connect that with my past and explain why I think this is the right time to resume my academic journey. End the paragraph with “hence I decided to pursue further education.”\n\n" ++
  "3rd Paragraph – Why this Course: Explain why this course is good for me. Align it with my past education and experience.\n\n" ++
  "4th Paragraph – Why this University: Explain why " ++ metadata.university ++
  ". Align it with the course that I have selected.\n\n" ++
  "5th Paragraph – Why this Country: Explain why " ++ metadata.country ++
  ". Justify it in the context of this course.\n\n" ++
  "6th Paragraph – Future Plans: Explain my plans after the completion of this course.\n\n" ++
  "7th Paragraph – Conclusion: Wrap up the SOP with a convincing statement and gratitude.\n\n" ++
  "Here is the course information:\n" ++ metadata.courseInfo ++ "\n"

/-- Per-record external environment for one Pass-1 record: result of the
URL fetch (`none` = the fetch threw), of the metadata extraction (`none` =
the extractor threw; the string-field common case, see `ExtractEnv` for the
JSON-level model), the resume file system behaviour, and whether the prompt
file write succeeds. -/
structure Env1 where
  fetchResult : Option String
  geminiResult : Option Metadata
  resumeEnv : ResumeEnv
  writeOk : Bool
deriving DecidableEq, Repr

/-- index.js `processApplication(app)`: resolve course text, extract
metadata, read resume, build the prompt, write it, and return the CSV
update `{courseName, universityName, promptPath}` together with the file
system after the write.  `none` models a thrown error (caught by `main`). -/
def processApplication1 (env : Env1) (fs : FS) (a : App) :
    Option ((String × String × String) × FS) :=
  let courseTextOpt :=
    if jsStartsWith a.courseInput "http" then env.fetchResult else some a.courseInput
  match courseTextOpt with
  | none => none
  | some courseText =>
    if courseText = "" then none
    else
      match env.geminiResult with
      | none => none
      | some metadata =>
        let resumeContent := readResumeContent env.resumeEnv a.resumeFile
        let sopPrompt := buildSOPPrompt metadata resumeContent
        let fileName :=
          sanitizeFileName metadata.course ++ "_" ++
          sanitizeFileName metadata.university ++ "_prompt.txt"
        if env.writeOk then
          let savedPath := pathJoin promptsDirPath fileName
          some ((metadata.course, metadata.university, savedPath),
                fsWrite fs savedPath sopPrompt)
        else none

/-- index.js warning condition `app.resumeFile && !resumeContent`. -/
def pass1Warns (env : Env1) (a : App) : Bool :=
  jsTruthyOpt a.resumeFile && jsFalsyOpt (readResumeContent env.resumeEnv a.resumeFile)

/-- index.js skip condition `app.promptPath && app.promptPath.trim() !== ''`. -/
def pass1Skips (a : App) : Bool :=
  match a.promptPath with
  | none => false
  | some s => s != "" && jsTrim s != ""

structure StepRes1 where
  app : App
  fs : FS
  processed : Bool
deriving DecidableEq, Repr

/-- One iteration of the index.js `main` loop body for one record: skip,
or process and update the record on success, or set the
`FAILED_PROCESSING` sentinel on any thrown error. -/
def pass1Step (env : Env1) (fs : FS) (a : App) : StepRes1 :=
  if pass1Skips a then ⟨a, fs, false⟩
  else
    match processApplication1 env fs a with
    | some ((c, u, p), fs') =>
      ⟨{ a with courseName := some c, universityName := some u, promptPath := some p },
       fs', true⟩
    | none => ⟨{ a with promptPath := some "FAILED_PROCESSING" }, fs, false⟩

structure LoopRes1 where
  apps : List App
  fs : FS
  count : Nat
deriving DecidableEq, Repr

/-- The index.js `main` sweep over all records, threading the file system;
`envf i` is the external environment met by the record at position `i`. -/
def pass1Loop (envf : Nat → Env1) : Nat → FS → List App → LoopRes1
  | _, fs, [] => ⟨[], fs, 0⟩
  | i, fs, a :: rest =>
    let r := pass1Step (envf i) fs a
    let rr := pass1Loop envf (i + 1) r.fs rest
    ⟨r.app :: rr.apps, rr.fs, (if r.processed then 1 else 0) + rr.count⟩

structure Pass1Result where
  apps : List App
  fs : FS
  processedCount : Nat
  wrote : Bool
deriving DecidableEq, Repr

/-- index.js `main`: empty collection returns without writing; otherwise
sweep, then call `csvService.writeApplications` iff `processedCount > 0`. -/
def pass1Main (envf : Nat → Env1) (fs : FS) (apps : List App) : Pass1Result :=
  match apps with
  | [] => ⟨apps, fs, 0, false⟩
  | _ :: _ =>
    let r := pass1Loop envf 0 fs apps
    ⟨r.apps, r.fs, r.count, decide (0 < r.count)⟩

/-- Per-record external environment for one Pass-2 record: the OpenRouter
generation result (`none` = the call threw) and whether the SOP file write
would succeed. -/
structure Env2 where
  generateResult : Option String
  writeOk : Bool
deriving DecidableEq, Repr

/-- generateSOP.js error classification: `promptFileMissing` models the
thrown `PROMPT_FILE_MISSING` string, `other` every other thrown error. -/
inductive P2Error where
  | promptFileMissing
  | other
deriving DecidableEq, Repr

/-- generateSOP.js `promptFileName.replace` of the case-insensitive anchored pattern `_prompt.txt` by `_sop.txt`:
case-insensitive anchored suffix replacement. -/
def replaceSopSuffix (name : String) : String :=
  if (name.data.map Char.toLower).reverse.take 11 = "_prompt.txt".data.reverse then
    ⟨name.data.take (name.length - 11)⟩ ++ "_sop.txt"
  else name

/-- generateSOP.js `processApplication(app)`: validate and read the prompt
file, generate the SOP, create the SOP directory, write the SOP file and
return its path together with the file system after the write.

`config.paths.sops` is `undefined` (see `configPathsSops`), so once
generation succeeds, `fs.existsSync(undefined)` returns `false` and
`fs.mkdirSync(undefined, ...)` throws a `TypeError`, which the caller
classifies as a non-`PROMPT_FILE_MISSING` error: the success branch is
unreachable in the shipped configuration. -/
def processApplication2 (env : Env2) (fs : FS) (a : App) :
    Except P2Error (String × FS) :=
  match a.promptPath with
  | none => .error .promptFileMissing
  | some p =>
    if p = "" then .error .promptFileMissing
    else
      match fsLookup fs p with
      | none => .error .promptFileMissing
      | some _promptText =>
        match env.generateResult with
        | none => .error .other
        | some sopText =>
          match configPathsSops with
          | none => .error .other
          | some sopsDir =>
            let sopFileName := replaceSopSuffix (basename p)
            let sopFilePath := pathJoin sopsDir sopFileName
            if env.writeOk then .ok (sopFilePath, fsWrite fs sopFilePath sopText)
            else .error .other

/-- generateSOP.js work-queue predicate
`app.promptPath`, not `app.promptPath.includes("FAILED")`, and `app.sopPath` absent or blank after trim. -/
def pass2Eligible (a : App) : Bool :=
  match a.promptPath with
  | none => false
  | some p =>
    p != "" && !strIncludes p "FAILED" &&
      (match a.sopPath with
       | none => true
       | some s => s == "" || jsTrim s == "")

structure StepRes2 where
  app : App
  fs : FS
  processed : Bool
  changed : Bool
deriving DecidableEq, Repr

/-- One iteration of the generateSOP.js `main` loop body: records outside
the work queue are untouched; success sets `sopPath` and marks the
collection changed; a missing prompt file sets the `FAILED_MISSING_PROMPT`
sentinel and marks it changed; any other error leaves the record untouched
(retry on the next run). -/
def pass2Step (env : Env2) (fs : FS) (a : App) : StepRes2 :=
  if pass2Eligible a then
    match processApplication2 env fs a with
    | .ok (sopPath, fs') => ⟨{ a with sopPath := some sopPath }, fs', true, true⟩
    | .error .promptFileMissing =>
      ⟨{ a with sopPath := some "FAILED_MISSING_PROMPT" }, fs, false, true⟩
    | .error .other => ⟨a, fs, false, false⟩
  else ⟨a, fs, false, false⟩

structure LoopRes2 where
  apps : List App
  fs : FS
  count : Nat
  changed : Bool
deriving DecidableEq, Repr

/-- The generateSOP.js `main` sweep over `allApplications`, threading the
file system; membership of the reference-identity work queue
`appsToProcess` is equivalent to `pass2Eligible` on the not-yet-mutated
record at each position. -/
def pass2Loop (envf : Nat → Env2) : Nat → FS → List App → LoopRes2
  | _, fs, [] => ⟨[], fs, 0, false⟩
  | i, fs, a :: rest =>
    let r := pass2Step (envf i) fs a
    let rr := pass2Loop envf (i + 1) r.fs rest
    ⟨r.app :: rr.apps, rr.fs, (if r.processed then 1 else 0) + rr.count,
     r.changed || rr.changed⟩

structure Pass2Result where
  apps : List App
  fs : FS
  processedCount : Nat
  changed : Bool
  wrote : Bool
deriving DecidableEq, Repr

/-- generateSOP.js `main`: return without writing when the work queue is
empty; otherwise sweep and call `csvService.writeApplications` iff
`hasChanges`. -/
def pass2Main (envf : Nat → Env2) (fs : FS) (apps : List App) : Pass2Result :=
  if (apps.filter pass2Eligible).isEmpty then ⟨apps, fs, 0, false, false⟩
  else
    let r := pass2Loop envf 0 fs apps
    ⟨r.apps, r.fs, r.count, r.changed, r.changed⟩

/-- A sweep in which no step set the changed flag: every record was either
skipped or failed transiently (mirrors the loop threading exactly). -/
def pass2AllTransient (envf : Nat → Env2) : Nat → FS → List App → Bool
  | _, _, [] => true
  | i, fs, a :: rest =>
    let r := pass2Step (envf i) fs a
    !r.changed && pass2AllTransient envf (i + 1) r.fs rest

/-- A JSON value as produced by `JSON.parse` (JSON numbers modelled by
`Int`; no claim depends on fractional values). -/
inductive JsVal where
  | null
  | bool (b : Bool)
  | num (n : Int)
  | str (s : String)
  | arr (elems : List JsVal)
  | obj (fields : List (String × JsVal))

/-- JS truthiness of a JSON value (`[]` and `{}` are truthy in JS). -/
def jsTruthyVal : JsVal → Bool
  | .null => false
  | .bool b => b
  | .num n => n != 0
  | .str s => s != ""
  | .arr _ => true
  | .obj _ => true

/-- JS property access `v.k` for a non-`null` value: a field of an object,
`undefined` (here `none`) otherwise.  Access on `null` throws and is
handled separately in `extractMetadataAndInfo`. -/
def jsField (v : JsVal) (k : String) : Option JsVal :=
  match v with
  | .obj fields => fields.lookup k
  | _ => none

/-- JS `x || d` defaulting used on the four extracted fields. -/
def jsOrDefault (v : Option JsVal) (d : String) : JsVal :=
  match v with
  | none => .str d
  | some x => if jsTruthyVal x then x else .str d

/-- geminiService cleaning of the model reply:
`rawText.replace(/```json/g, '').replace(/```/g, '').trim()`. -/
def cleanedJson (rawText : String) : String :=
  jsTrim (jsReplaceAll (jsReplaceAll rawText "```json" "") "```" "")

/-- The extractor result: the four fields of the object geminiService
returns; each is a JSON value (the `data.courseName || default` pattern keeps
any truthy value as-is). -/
structure ExtractedInfo where
  course : JsVal
  university : JsVal
  country : JsVal
  courseInfo : JsVal

/-- Is a JSON value a non-empty string? -/
def jsonNonemptyStr : JsVal → Bool
  | .str s => s != ""
  | _ => false

/-- External behaviour of one `extractMetadataAndInfo` call: HTTP success
flag, the model reply text reached through the optional chain
`raw?.candidates?.[0]?.content?.parts?.[0]?.text` (`none` = chain yields
`undefined`), and the behaviour of `JSON.parse` (`none` = parse throws). -/
structure ExtractEnv where
  httpOk : Bool
  rawText : Option String
  parse : String → Option JsVal

/-- geminiService `extractMetadataAndInfo(courseText)`: throw on HTTP
failure; clean the reply text and parse it as JSON, throwing on a parse
error; accessing `data.courseName` on a parsed `null` throws a JS
`TypeError` (also re-thrown); otherwise default each missing or falsy
field and return.  The prompt submitted embeds
`geminiSubmittedCourseText courseText` (see `geminiPrompt`). -/
def extractMetadataAndInfo (env : ExtractEnv) (_courseText : String) :
    Except Unit ExtractedInfo :=
  if env.httpOk = false then .error ()
  else
    let rawText := env.rawText.getD ""
    match env.parse (cleanedJson rawText) with
    | none => .error ()
    | some JsVal.null => .error ()
    | some data =>
      .ok { course := jsOrDefault (jsField data "courseName") "Unknown Course",
            university := jsOrDefault (jsField data "universityName") "Unknown University",
            country := jsOrDefault (jsField data "country") "Unknown Country",
            courseInfo := jsOrDefault (jsField data "summary") "Info not available." }

/-- geminiService truncation `courseText.substring(0, 30000)` of the text
interpolated into the extraction prompt. -/
def geminiSubmittedCourseText (courseText : String) : String :=
  jsSubstring0 courseText 30000

/-- The extraction prompt geminiService submits (template literal with the
course text truncated to 30000 characters). -/
def geminiPrompt (courseText : String) : String :=
  "\n    Analyze the following course information and extract the specified details.\n    Return the output as a single, minified, valid JSON object with no other text before or after it.\n    The JSON object must have these exact keys: \"courseName\", \"universityName\", \"country\", \"summary\".\n\n    - \"courseName\": The official name of the course.\n    - \"universityName\": The name of the university offering the course.\n    - \"country\": The country where the university is located.\n    - \"summary\": A concise, 10-line summary covering the course focus, key modules, skills gained, and potential career paths.\n\n    Course Information:\n    ---\n    " ++
  geminiSubmittedCourseText courseText ++ "\n    ---\n  "

/-! Concrete fixtures used by counterexamples and witnesses. -/

def appC1 : App :=
  { candidateName := "alice", resumeFile := none, courseInput := "course text",
    courseName := none, universityName := none, promptPath := none, sopPath := none }

/-- Pass-1 environment in which the metadata extractor throws. -/
def envC1 : Env1 :=
  { fetchResult := none, geminiResult := none, resumeEnv := .fileMissing, writeOk := true }

def appC1sentinel : App := { appC1 with promptPath := some "FAILED_PROCESSING" }

def appC3 : App :=
  { candidateName := "carol", resumeFile := none, courseInput := "text",
    courseName := none, universityName := none, promptPath := some " ", sopPath := none }

def envC3 : Env1 :=
  { fetchResult := none, geminiResult := none, resumeEnv := .fileMissing, writeOk := true }

def appC3w : App :=
  { candidateName := "carl", resumeFile := none, courseInput := "text",
    courseName := none, universityName := none,
    promptPath := some "prompts/a_prompt.txt", sopPath := none }

def appC4 : App :=
  { candidateName := "dave", resumeFile := none, courseInput := "text",
    courseName := some "c", universityName := some "u",
    promptPath := some "prompts/x_prompt.txt", sopPath := none }

def envC4 : Env2 := { generateResult := some "SOP", writeOk := true }

def appC5 : App :=
  { candidateName := "eve", resumeFile := none, courseInput := "text",
    courseName := some "c", universityName := some "u",
    promptPath := some "prompts/y_prompt.txt", sopPath := none }

def fsC5 : FS := [("prompts/y_prompt.txt", "PROMPT")]

/-- Pass-2 environment in which the SOP generator throws (transient). -/
def envC5 : Env2 := { generateResult := none, writeOk := true }

def mdC6 : Metadata :=
  { course := "CS", university := "MIT", country := "USA", courseInfo := "A fine course." }

def appC6a : App :=
  { candidateName := "henry", resumeFile := none, courseInput := "course text",
    courseName := none, universityName := none, promptPath := none, sopPath := none }

def envC6a : Env1 :=
  { fetchResult := none, geminiResult := some mdC6, resumeEnv := .fileMissing, writeOk := true }

def appC6b : App :=
  { candidateName := "henry", resumeFile := none, courseInput := "t",
    courseName := some "CS", universityName := some "MIT",
    promptPath := some "prompts/cs_mit_prompt.txt", sopPath := none }

def fsC6 : FS := [("prompts/cs_mit_prompt.txt", "PROMPT TEXT")]

/-- Pass-2 environment in which generation and the raw write would both
succeed. -/
def envC6b : Env2 := { generateResult := some "SOP TEXT", writeOk := true }

def appC7 : App :=
  { candidateName := "frank", resumeFile := some "r", courseInput := "text",
    courseName := none, universityName := none, promptPath := none, sopPath := none }

def envC7 : Env1 :=
  { fetchResult := none, geminiResult := none, resumeEnv := .fileMissing, writeOk := true }

def appC7f : App := { appC7 with promptPath := some "FAILED_PROCESSING" }

/-- Extractor environment whose model reply is the valid JSON text `null`. -/
def envC8null : ExtractEnv :=
  { httpOk := true, rawText := some "null",
    parse := fun s => if s = "null" then some JsVal.null else none }

/-- Extractor environment whose model reply parses to the empty object. -/
def envC8ok : ExtractEnv :=
  { httpOk := true, rawText := some "\x7b\x7d",
    parse := fun s => if s = "\x7b\x7d" then some (JsVal.obj []) else none }

def appC9 : App :=
  { candidateName := "gina", resumeFile := some "resume1", courseInput := "course text",
    courseName := none, universityName := none, promptPath := none, sopPath := none }

def envC9 : Env1 :=
  { fetchResult := none,
    geminiResult := some { course := "CS", university := "MIT", country := "USA",
                           courseInfo := "info" },
    resumeEnv := .fileMissing, writeOk := true }

/-- Extractor environment whose model reply parses to an object whose
`courseName` is the (truthy, non-string) JSON number `42`. -/
def envC10 : ExtractEnv :=
  { httpOk := true, rawText := some "x",
    parse := fun _ => some (JsVal.obj [("courseName", JsVal.num 42)]) }

def infoC10 : ExtractedInfo :=
  { course := JsVal.num 42, university := JsVal.str "Unknown University",
    country := JsVal.str "Unknown Country", courseInfo := JsVal.str "Info not available." }

def envC10w : ExtractEnv :=
  { httpOk := true, rawText := some "\x7b\x7d", parse := fun _ => some (JsVal.obj []) }

/-! Helper lemmas shared between the claim theorems. -/

theorem trim_ne_empty_of (s : String) (h : jsTrim s ≠ "") : s ≠ "" := by
  intro he
  subst he
  exact h rfl

theorem pass1Skips_of_trim (a : App) (s : String)
    (hp : a.promptPath = some s) (ht : jsTrim s ≠ "") : pass1Skips a = true := by
  unfold pass1Skips
  rw [hp]
  have hne : s ≠ "" := trim_ne_empty_of s ht
  simp [hne, ht]

theorem pass1Step_skip (env : Env1) (fs : FS) (a : App) (s : String)
    (hp : a.promptPath = some s) (ht : jsTrim s ≠ "") :
    pass1Step env fs a = ⟨a, fs, false⟩ := by
  unfold pass1Step
  rw [pass1Skips_of_trim a s hp ht]
  rfl

theorem pass1_wrote_iff (envf : Nat → Env1) (fs : FS) (apps : List App) :
    (pass1Main envf fs apps).wrote = true ↔ 0 < (pass1Main envf fs apps).processedCount := by
  cases apps with
  | nil => simp [pass1Main]
  | cons a rest => simp [pass1Main]

theorem pass2_wrote_eq_changed (envf : Nat → Env2) (fs : FS) (apps : List App) :
    (pass2Main envf fs apps).wrote = (pass2Main envf fs apps).changed := by
  unfold pass2Main
  split <;> rfl

theorem pass2Eligible_false_of_sop (a : App) (s : String)
    (hs : a.sopPath = some s) (ht : jsTrim s ≠ "") : pass2Eligible a = false := by
  unfold pass2Eligible
  have hne : s ≠ "" := trim_ne_empty_of s ht
  cases hpp : a.promptPath with
  | none => rfl
  | some p => simp [hs, hne, ht]

theorem pass2Eligible_false_of_failed (a : App) (s : String)
    (hp : a.promptPath = some s) (hinc : strIncludes s "FAILED" = true) :
    pass2Eligible a = false := by
  unfold pass2Eligible
  rw [hp]
  simp [hinc]

theorem pass2Step_skip (env : Env2) (fs : FS) (a : App)
    (h : pass2Eligible a = false) : pass2Step env fs a = ⟨a, fs, false, false⟩ := by
  unfold pass2Step
  rw [h]
  rfl

/-- A Pass-2-eligible record has a non-empty, non-sentinel prompt path. -/
theorem pass2Eligible_promptPath (a : App) (h : pass2Eligible a = true) :
    ∃ p, a.promptPath = some p ∧ p ≠ "" ∧ strIncludes p "FAILED" = false := by
  unfold pass2Eligible at h
  cases hpp : a.promptPath with
  | none => rw [hpp] at h; cases h
  | some p =>
    rw [hpp] at h
    simp only [Bool.and_eq_true, bne_iff_ne, ne_eq, Bool.not_eq_true'] at h
    exact ⟨p, rfl, h.1.1, h.1.2⟩

/-- generateSOP.js classifies a missing prompt file as
`PROMPT_FILE_MISSING`. -/
theorem processApplication2_missing (env : Env2) (fs : FS) (a : App) (p : String)
    (hpp : a.promptPath = some p) (hpne : p ≠ "") (hmiss : fsLookup fs p = none) :
    processApplication2 env fs a = .error .promptFileMissing := by
  unfold processApplication2
  rw [hpp]
  dsimp only
  rw [if_neg hpne, hmiss]

/-- Claim C1, counterexample: a single eligible record whose Pass-1
processing fails is marked `FAILED_PROCESSING` in memory, yet the run
performs no store write (`processedCount = 0`), so the sentinel is not
recorded and the next run will retry the record — refuting the claim that
any record marked with a failure sentinel during a run is recorded so that
future runs skip it. -/
theorem c1_counterexample :
    (pass1Main (fun _ => envC1) [] [appC1]).apps = [appC1sentinel] ∧
    appC1sentinel.promptPath = some "FAILED_PROCESSING" ∧
    (pass1Main (fun _ => envC1) [] [appC1]).wrote = false := by
  refine ⟨by decide, rfl, by decide⟩

/-- Claim C1, amended: a record whose `promptPath` is already the
`FAILED_PROCESSING` sentinel is never processed by Pass 1 again, and a
record carrying a `FAILED` sentinel in `promptPath` or a non-blank
`sopPath` is skipped by Pass 2; a sentinel newly set during a Pass-2 sweep
always sets the changed flag (the flag that alone triggers the Pass-2
write), but a sentinel set during a Pass-1 sweep is persisted only when
that sweep also processed at least one record successfully, because the
Pass-1 write happens iff `processedCount > 0`. -/
theorem c1_amended :
    (∀ (env : Env1) (fs : FS) (a : App),
       a.promptPath = some "FAILED_PROCESSING" → pass1Step env fs a = ⟨a, fs, false⟩) ∧
    (∀ (env : Env2) (fs : FS) (a : App) (s : String),
       a.promptPath = some s → strIncludes s "FAILED" = true →
       pass2Step env fs a = ⟨a, fs, false, false⟩) ∧
    (∀ (env : Env2) (fs : FS) (a : App) (s : String),
       a.sopPath = some s → jsTrim s ≠ "" →
       pass2Step env fs a = ⟨a, fs, false, false⟩) ∧
    (∀ (env : Env2) (fs : FS) (a : App),
       pass2Eligible a = true → fsLookup fs (a.promptPath.getD "") = none →
       (pass2Step env fs a).changed = true) ∧
    (∀ (envf : Nat → Env1) (fs : FS) (apps : List App),
       (pass1Main envf fs apps).wrote = true ↔ 0 < (pass1Main envf fs apps).processedCount) ∧
    (∀ (envf : Nat → Env2) (fs : FS) (apps : List App),
       (pass2Main envf fs apps).wrote = (pass2Main envf fs apps).changed) := by
  refine ⟨?_, ?_, ?_, ?_, pass1_wrote_iff, pass2_wrote_eq_changed⟩
  · intro env fs a hp
    exact pass1Step_skip env fs a _ hp (by decide)
  · intro env fs a s hp hinc
    exact pass2Step_skip env fs a (pass2Eligible_false_of_failed a s hp hinc)
  · intro env fs a s hs ht
    exact pass2Step_skip env fs a (pass2Eligible_false_of_sop a s hs ht)
  · intro env fs a helig hmiss
    obtain ⟨p, hpp, hpne, _⟩ := pass2Eligible_promptPath a helig
    rw [hpp] at hmiss
    simp only [Option.getD_some] at hmiss
    unfold pass2Step
    rw [helig, if_pos rfl, processApplication2_missing env fs a p hpp hpne hmiss]

/-- Claim C1, witness: the amended skip invariant at a concrete record
already carrying the Pass-1 failure sentinel. -/
theorem c1_witness : pass1Step envC1 [] appC1sentinel = ⟨appC1sentinel, [], false⟩ :=
  c1_amended.1 envC1 [] appC1sentinel rfl

/-- Claim C2, confirmed: after a Pass-1 sweep the record-store write is
invoked iff the processed count is positive — in particular no write
occurs for a zero count, regardless of any `FAILED_PROCESSING` sentinels
set during the sweep (the universally quantified environment includes runs
that set sentinels). -/
theorem c2_confirmed (envf : Nat → Env1) (fs : FS) (apps : List App) :
    (pass1Main envf fs apps).wrote = true ↔
      0 < (pass1Main envf fs apps).processedCount :=
  pass1_wrote_iff envf fs apps

/-- Claim C3, counterexample: a record whose `promptPath` is the non-empty
string `" "` (whitespace only) is nevertheless processed by Pass 1 —
the one-character whitespace string trims to empty, so the skip test fails — and the record is mutated
(here to the failure sentinel), refuting the claim that every record with
a non-empty `promptPath` is left completely unmodified. -/
theorem c3_counterexample :
    appC3.promptPath = some " " ∧ (" " : String) ≠ "" ∧
    (pass1Step envC3 [] appC3).app ≠ appC3 ∧
    (pass1Step envC3 [] appC3).app.promptPath = some "FAILED_PROCESSING" := by
  refine ⟨rfl, by decide, by decide, by decide⟩

/-- Claim C3, amended: Pass 1 leaves a record completely unmodified (and
runs no processing steps for it) whenever its `promptPath` is a string
that is non-blank, i.e. still non-empty after trimming whitespace; a
whitespace-only `promptPath` counts as unset and the record is processed. -/
theorem c3_amended (env : Env1) (fs : FS) (a : App) (s : String)
    (hp : a.promptPath = some s) (ht : jsTrim s ≠ "") :
    pass1Step env fs a = ⟨a, fs, false⟩ :=
  pass1Step_skip env fs a s hp ht

/-- Claim C3, witness: the amended skip invariant at a concrete record
holding a real prompt path. -/
theorem c3_witness : pass1Step envC3 [] appC3w = ⟨appC3w, [], false⟩ :=
  c3_amended envC3 [] appC3w "prompts/a_prompt.txt" rfl (by decide)

/-- Claim C4, confirmed: for an eligible record, a missing prompt file
makes Pass 2 set `sopPath` to exactly the `FAILED_MISSING_PROMPT` sentinel
and mark the collection changed (without touching the file system or the
processed count), while every other failure leaves the record, the file
system and both flags untouched, so the record stays retry-eligible. -/
theorem c4_confirmed (env : Env2) (fs : FS) (a : App)
    (helig : pass2Eligible a = true) :
    (fsLookup fs (a.promptPath.getD "") = none →
       pass2Step env fs a =
         ⟨{ a with sopPath := some "FAILED_MISSING_PROMPT" }, fs, false, true⟩) ∧
    (processApplication2 env fs a = .error .other →
       pass2Step env fs a = ⟨a, fs, false, false⟩) := by
  constructor
  · intro hmiss
    obtain ⟨p, hpp, hpne, _⟩ := pass2Eligible_promptPath a helig
    rw [hpp] at hmiss
    simp only [Option.getD_some] at hmiss
    unfold pass2Step
    rw [helig, if_pos rfl, processApplication2_missing env fs a p hpp hpne hmiss]
  · intro hother
    unfold pass2Step
    rw [helig, if_pos rfl, hother]

/-- Claim C4, witness: a concrete eligible record whose prompt file is
absent from the (empty) file system gets the sentinel. -/
theorem c4_witness :
    pass2Step envC4 [] appC4 =
      ⟨{ appC4 with sopPath := some "FAILED_MISSING_PROMPT" }, [], false, true⟩ :=
  (c4_confirmed envC4 [] appC4 (by decide)).1 (by decide)

/-- A Pass-2 step that does not set the changed flag leaves the record,
the file system and the processed flag untouched. -/
theorem pass2Step_id_of_not_changed (env : Env2) (fs : FS) (a : App)
    (h : (pass2Step env fs a).changed = false) :
    pass2Step env fs a = ⟨a, fs, false, false⟩ := by
  unfold pass2Step at h ⊢
  cases helig : pass2Eligible a with
  | false => simp [helig]
  | true =>
    cases hproc : processApplication2 env fs a with
    | ok v => simp [helig, hproc] at h
    | error e =>
      cases e
      · simp [helig, hproc] at h
      · simp [helig, hproc]

/-- The Pass-2 sweep sets the changed flag exactly when it was not
all-transient. -/
theorem pass2Loop_changed_eq (envf : Nat → Env2) :
    ∀ (l : List App) (i : Nat) (fs : FS),
      (pass2Loop envf i fs l).changed = !(pass2AllTransient envf i fs l) := by
  intro l
  induction l with
  | nil => intro i fs; rfl
  | cons a rest ih =>
    intro i fs
    unfold pass2Loop pass2AllTransient
    simp only [Bool.not_and, Bool.not_not, ih]

/-- An all-transient Pass-2 sweep is an identity on the records and the
file system and makes no qualifying change. -/
theorem pass2Loop_id_of_allTransient (envf : Nat → Env2) :
    ∀ (l : List App) (i : Nat) (fs : FS),
      pass2AllTransient envf i fs l = true →
      pass2Loop envf i fs l = ⟨l, fs, 0, false⟩ := by
  intro l
  induction l with
  | nil => intro i fs _; rfl
  | cons a rest ih =>
    intro i fs h
    simp only [pass2AllTransient, Bool.and_eq_true, Bool.not_eq_true'] at h
    obtain ⟨hc, hrest⟩ := h
    have hstep := pass2Step_id_of_not_changed (envf i) fs a hc
    rw [hstep] at hrest
    simp only [pass2Loop, hstep, ih (i + 1) fs hrest]
    simp

/-- A collection with no eligible record yields an all-transient sweep. -/
theorem allTransient_of_no_eligible (envf : Nat → Env2) :
    ∀ (l : List App) (i : Nat) (fs : FS),
      (∀ a ∈ l, pass2Eligible a = false) →
      pass2AllTransient envf i fs l = true := by
  intro l
  induction l with
  | nil => intro i fs _; rfl
  | cons a rest ih =>
    intro i fs h
    have ha : pass2Eligible a = false := h a (List.mem_cons_self a rest)
    have hstep : pass2Step (envf i) fs a = ⟨a, fs, false, false⟩ :=
      pass2Step_skip (envf i) fs a ha
    simp only [pass2AllTransient, hstep]
    exact ih (i + 1) fs (fun b hb => h b (List.mem_cons_of_mem a hb))

/-- Claim C5, confirmed: the Pass-2 persistence write happens iff the
changed flag is set; a step sets the flag exactly when the record was
eligible and its outcome was a successful generation or a newly marked
`FAILED_MISSING_PROMPT` (never for a transient failure); and a run whose
every step is skipped or fails transiently performs no write and leaves
every record unchanged.  `pass2AllTransient` replays the sweep and records
that no step set the flag. -/
theorem c5_confirmed :
    (∀ (envf : Nat → Env2) (fs : FS) (apps : List App),
       (pass2Main envf fs apps).wrote = (pass2Main envf fs apps).changed) ∧
    (∀ (env : Env2) (fs : FS) (a : App),
       (pass2Step env fs a).changed = true ↔
         (pass2Eligible a = true ∧
          processApplication2 env fs a ≠ Except.error P2Error.other)) ∧
    (∀ (envf : Nat → Env2) (fs : FS) (apps : List App),
       (pass2Main envf fs apps).wrote = !(pass2AllTransient envf 0 fs apps)) ∧
    (∀ (envf : Nat → Env2) (fs : FS) (apps : List App),
       pass2AllTransient envf 0 fs apps = true →
       (pass2Main envf fs apps).wrote = false ∧
       (pass2Main envf fs apps).apps = apps ∧
       (pass2Main envf fs apps).fs = fs) := by
  have hmain : ∀ (envf : Nat → Env2) (fs : FS) (apps : List App),
      (pass2Main envf fs apps).wrote = !(pass2AllTransient envf 0 fs apps) := by
    intro envf fs apps
    unfold pass2Main
    split
    · rename_i hempty
      have hnone : ∀ a ∈ apps, pass2Eligible a = false := by
        intro a ha
        have := List.filter_eq_nil_iff.mp (List.isEmpty_iff.mp hempty) a ha
        simpa using this
      rw [allTransient_of_no_eligible envf apps 0 fs hnone]
      rfl
    · exact pass2Loop_changed_eq envf apps 0 fs
  refine ⟨pass2_wrote_eq_changed, ?_, hmain, ?_⟩
  · intro env fs a
    unfold pass2Step
    cases helig : pass2Eligible a with
    | false => simp [helig]
    | true =>
      cases hproc : processApplication2 env fs a with
      | ok v => simp [helig, hproc]
      | error e => cases e <;> simp [helig, hproc]
  · intro envf fs apps h
    refine ⟨by rw [hmain envf fs apps, h]; rfl, ?_, ?_⟩ <;>
      · unfold pass2Main
        split
        · rfl
        · rw [pass2Loop_id_of_allTransient envf apps 0 fs h]

/-- Claim C5, witness: a concrete run whose only record is eligible, whose
prompt file exists and whose generation call throws — an all-transient
sweep — performs no write and changes nothing. -/
theorem c5_witness :
    (pass2Main (fun _ => envC5) fsC5 [appC5]).wrote = false ∧
    (pass2Main (fun _ => envC5) fsC5 [appC5]).apps = [appC5] ∧
    (pass2Main (fun _ => envC5) fsC5 [appC5]).fs = fsC5 :=
  c5_confirmed.2.2.2 (fun _ => envC5) fsC5 [appC5] (by decide)

/-- Claim C6, code bug: the Pass-1 half of the claim holds — a successful
`processApplication` writes the prompt file first and the recorded
`promptPath` names a file whose contents are exactly the Prompt Builder
output for the metadata and resume text used — but the Pass-2 half rests
on dead code: `config.paths.sops` is `undefined` (config.js defines no
`sops` entry), so after a successful generation `fs.mkdirSync(undefined)`
throws and `processApplication` in generateSOP.js can never reach its
write; the concrete record below has an existing prompt file and a
successful generation, yet the call fails with a non-missing-prompt
error. -/
theorem c6_code_bug :
    (processApplication1 envC6a [] appC6a =
       some (("CS", "MIT", "prompts/cs_mit_prompt.txt"),
             [("prompts/cs_mit_prompt.txt", buildSOPPrompt mdC6 none)]) ∧
     fsLookup (pass1Step envC6a [] appC6a).fs "prompts/cs_mit_prompt.txt" =
       some (buildSOPPrompt mdC6 none) ∧
     (pass1Step envC6a [] appC6a).app.promptPath = some "prompts/cs_mit_prompt.txt") ∧
    (pass2Eligible appC6b = true ∧
     fsLookup fsC6 "prompts/cs_mit_prompt.txt" = some "PROMPT TEXT" ∧
     configPathsSops = none ∧
     processApplication2 envC6b fsC6 appC6b = Except.error P2Error.other) := by
  have h1 : processApplication1 envC6a [] appC6a =
      some (("CS", "MIT", "prompts/cs_mit_prompt.txt"),
            [("prompts/cs_mit_prompt.txt", buildSOPPrompt mdC6 none)]) := rfl
  have hskip : pass1Skips appC6a = false := rfl
  have hstep : pass1Step envC6a [] appC6a =
      ⟨{ appC6a with courseName := some "CS", universityName := some "MIT",
                     promptPath := some "prompts/cs_mit_prompt.txt" },
       [("prompts/cs_mit_prompt.txt", buildSOPPrompt mdC6 none)], true⟩ := by
    unfold pass1Step
    rw [hskip, h1]
    rfl
  refine ⟨⟨h1, ?_, ?_⟩, by decide, by decide, rfl, rfl⟩
  · rw [hstep]
    simp [fsLookup, List.lookup]
  · rw [hstep]

/-- A Pass-1 step never changes `candidateName`, `resumeFile` or
`courseInput`. -/
theorem pass1Step_frame (env : Env1) (fs : FS) (a : App) :
    ((pass1Step env fs a).app).candidateName = a.candidateName ∧
    ((pass1Step env fs a).app).resumeFile = a.resumeFile ∧
    ((pass1Step env fs a).app).courseInput = a.courseInput := by
  unfold pass1Step
  split
  · exact ⟨rfl, rfl, rfl⟩
  · split
    · exact ⟨rfl, rfl, rfl⟩
    · exact ⟨rfl, rfl, rfl⟩

/-- A Pass-2 step changes at most `sopPath`. -/
theorem pass2Step_frame (env : Env2) (fs : FS) (a : App) :
    ((pass2Step env fs a).app).candidateName = a.candidateName ∧
    ((pass2Step env fs a).app).resumeFile = a.resumeFile ∧
    ((pass2Step env fs a).app).courseInput = a.courseInput ∧
    ((pass2Step env fs a).app).courseName = a.courseName ∧
    ((pass2Step env fs a).app).universityName = a.universityName ∧
    ((pass2Step env fs a).app).promptPath = a.promptPath := by
  unfold pass2Step
  split
  · split
    · exact ⟨rfl, rfl, rfl, rfl, rfl, rfl⟩
    · exact ⟨rfl, rfl, rfl, rfl, rfl, rfl⟩
    · exact ⟨rfl, rfl, rfl, rfl, rfl, rfl⟩
  · exact ⟨rfl, rfl, rfl, rfl, rfl, rfl⟩

/-- The Pass-1 sweep preserves length and, position by position, the
fields it never mutates. -/
theorem pass1Loop_frame (envf : Nat → Env1) :
    ∀ (l : List App) (i : Nat) (fs : FS),
      (pass1Loop envf i fs l).apps.length = l.length ∧
      (∀ (j : Nat) (b b' : App), l.get? j = some b →
        (pass1Loop envf i fs l).apps.get? j = some b' →
        b'.candidateName = b.candidateName ∧ b'.resumeFile = b.resumeFile ∧
        b'.courseInput = b.courseInput) := by
  intro l
  induction l with
  | nil =>
    intro i fs
    refine ⟨rfl, ?_⟩
    intro j b b' hb _
    simp at hb
  | cons a rest ih =>
    intro i fs
    have ihr := ih (i + 1) (pass1Step (envf i) fs a).fs
    constructor
    · simp only [pass1Loop, List.length_cons, ihr.1]
    · intro j b b' hb hb'
      cases j with
      | zero =>
        simp only [List.get?] at hb
        simp only [pass1Loop, List.get?] at hb'
        cases hb
        cases hb'
        exact pass1Step_frame (envf i) fs a
      | succ j =>
        simp only [List.get?] at hb
        simp only [pass1Loop, List.get?] at hb'
        exact ihr.2 j b b' hb hb'

/-- The Pass-2 sweep preserves length and, position by position, the
fields it never mutates. -/
theorem pass2Loop_frame (envf : Nat → Env2) :
    ∀ (l : List App) (i : Nat) (fs : FS),
      (pass2Loop envf i fs l).apps.length = l.length ∧
      (∀ (j : Nat) (b b' : App), l.get? j = some b →
        (pass2Loop envf i fs l).apps.get? j = some b' →
        b'.candidateName = b.candidateName ∧ b'.resumeFile = b.resumeFile ∧
        b'.courseInput = b.courseInput ∧ b'.courseName = b.courseName ∧
        b'.universityName = b.universityName ∧ b'.promptPath = b.promptPath) := by
  intro l
  induction l with
  | nil =>
    intro i fs
    refine ⟨rfl, ?_⟩
    intro j b b' hb _
    simp at hb
  | cons a rest ih =>
    intro i fs
    have ihr := ih (i + 1) (pass2Step (envf i) fs a).fs
    constructor
    · simp only [pass2Loop, List.length_cons, ihr.1]
    · intro j b b' hb hb'
      cases j with
      | zero =>
        simp only [List.get?] at hb
        simp only [pass2Loop, List.get?] at hb'
        cases hb
        cases hb'
        exact pass2Step_frame (envf i) fs a
      | succ j =>
        simp only [List.get?] at hb
        simp only [pass2Loop, List.get?] at hb'
        exact ihr.2 j b b' hb hb'

/-- Claim C7, confirmed: both passes keep the number and order of records
(position `j` before maps to position `j` after, and the written
collection is exactly the swept one), and mutate only `courseName`,
`universityName`, `promptPath` (Pass 1) and `sopPath` (Pass 2): the
remaining fields are preserved position by position. -/
theorem c7_confirmed :
    (∀ (envf : Nat → Env1) (fs : FS) (apps : List App),
       (pass1Main envf fs apps).apps.length = apps.length) ∧
    (∀ (envf : Nat → Env1) (fs : FS) (apps : List App) (j : Nat) (b b' : App),
       apps.get? j = some b → (pass1Main envf fs apps).apps.get? j = some b' →
       b'.candidateName = b.candidateName ∧ b'.resumeFile = b.resumeFile ∧
       b'.courseInput = b.courseInput) ∧
    (∀ (envf : Nat → Env2) (fs : FS) (apps : List App),
       (pass2Main envf fs apps).apps.length = apps.length) ∧
    (∀ (envf : Nat → Env2) (fs : FS) (apps : List App) (j : Nat) (b b' : App),
       apps.get? j = some b → (pass2Main envf fs apps).apps.get? j = some b' →
       b'.candidateName = b.candidateName ∧ b'.resumeFile = b.resumeFile ∧
       b'.courseInput = b.courseInput ∧ b'.courseName = b.courseName ∧
       b'.universityName = b.universityName ∧ b'.promptPath = b.promptPath) := by
  refine ⟨?_, ?_, ?_, ?_⟩
  · intro envf fs apps
    cases apps with
    | nil => rfl
    | cons a rest => exact (pass1Loop_frame envf (a :: rest) 0 fs).1
  · intro envf fs apps j b b' hb hb'
    cases apps with
    | nil => simp at hb
    | cons a rest => exact (pass1Loop_frame envf (a :: rest) 0 fs).2 j b b' hb hb'
  · intro envf fs apps
    unfold pass2Main
    split
    · rfl
    · exact (pass2Loop_frame envf apps 0 fs).1
  · intro envf fs apps j b b' hb hb'
    unfold pass2Main at hb'
    split at hb'
    · rw [hb] at hb'
      cases hb'
      exact ⟨rfl, rfl, rfl, rfl, rfl, rfl⟩
    · exact (pass2Loop_frame envf apps 0 fs).2 j b b' hb hb'

/-- Claim C7, witness: the frame property at a concrete one-record Pass-1
run that fails and sets the sentinel — the identifying fields survive. -/
theorem c7_witness :
    appC7f.candidateName = appC7.candidateName ∧
    appC7f.resumeFile = appC7.resumeFile ∧
    appC7f.courseInput = appC7.courseInput :=
  c7_confirmed.2.1 (fun _ => envC7) [] [appC7] 0 appC7 appC7f rfl (by decide)

/-- When the HTTP call succeeds and the cleaned reply parses to a
non-`null` JSON value, the extractor returns the four fields with `||`
defaulting applied. -/
theorem extract_ok (env : ExtractEnv) (t : String) (data : JsVal)
    (hok : env.httpOk = true)
    (hp : env.parse (cleanedJson (env.rawText.getD "")) = some data)
    (hnull : data ≠ JsVal.null) :
    extractMetadataAndInfo env t =
      .ok { course := jsOrDefault (jsField data "courseName") "Unknown Course",
            university := jsOrDefault (jsField data "universityName") "Unknown University",
            country := jsOrDefault (jsField data "country") "Unknown Country",
            courseInfo := jsOrDefault (jsField data "summary") "Info not available." } := by
  cases data with
  | null => exact absurd rfl hnull
  | bool b => simp [extractMetadataAndInfo, hok, hp]
  | num n => simp [extractMetadataAndInfo, hok, hp]
  | str s => simp [extractMetadataAndInfo, hok, hp]
  | arr elems => simp [extractMetadataAndInfo, hok, hp]
  | obj fields => simp [extractMetadataAndInfo, hok, hp]

/-- Claim C8, counterexample: the model reply `null` is valid JSON, so
`JSON.parse` succeeds on the cleaned text, yet the extract call still
fails — `data.courseName` on the parsed `null` throws a `TypeError` —
refuting the claim that the call fails only on transport/HTTP error or on
JSON-parse failure. -/
theorem c8_counterexample :
    envC8null.httpOk = true ∧
    envC8null.parse (cleanedJson (envC8null.rawText.getD "")) = some JsVal.null ∧
    extractMetadataAndInfo envC8null "course text" = .error () :=
  ⟨rfl, rfl, rfl⟩

/-- Claim C8, amended: the extractor submits at most the first 30000
characters of the course text (the submitted part is a prefix and the
prompt depends on nothing beyond it), and the call fails exactly on
transport/HTTP error, on JSON-parse failure of the cleaned reply text, or
on a reply that parses to JSON `null` (property access on `null` throws);
every other parsed value — in particular any object lacking some of the
four expected keys — succeeds with the missing or falsy fields replaced by
the fixed placeholders. -/
theorem c8_amended (env : ExtractEnv) (t : String) :
    ((geminiSubmittedCourseText t).length ≤ 30000 ∧
     geminiSubmittedCourseText t ++ (⟨t.data.drop 30000⟩ : String) = t ∧
     geminiPrompt t = geminiPrompt (geminiSubmittedCourseText t)) ∧
    (extractMetadataAndInfo env t = .error () ↔
      (env.httpOk = false ∨
       env.parse (cleanedJson (env.rawText.getD "")) = none ∨
       env.parse (cleanedJson (env.rawText.getD "")) = some JsVal.null)) ∧
    (∀ data : JsVal, env.httpOk = true →
       env.parse (cleanedJson (env.rawText.getD "")) = some data → data ≠ JsVal.null →
       extractMetadataAndInfo env t =
         .ok { course := jsOrDefault (jsField data "courseName") "Unknown Course",
               university := jsOrDefault (jsField data "universityName") "Unknown University",
               country := jsOrDefault (jsField data "country") "Unknown Country",
               courseInfo := jsOrDefault (jsField data "summary") "Info not available." }) := by
  refine ⟨⟨?_, ?_, ?_⟩, ?_, ?_⟩
  · show (t.data.take 30000).length ≤ 30000
    rw [List.length_take]
    exact Nat.min_le_left _ _
  · show String.mk (t.data.take 30000 ++ t.data.drop 30000) = t
    rw [List.take_append_drop]
  · simp [geminiPrompt, geminiSubmittedCourseText, jsSubstring0, List.take_take]
  · cases hok : env.httpOk with
    | false => simp [extractMetadataAndInfo, hok]
    | true =>
      cases hp : env.parse (cleanedJson (env.rawText.getD "")) with
      | none => simp [extractMetadataAndInfo, hok, hp]
      | some v => cases v <;> simp [extractMetadataAndInfo, hok, hp]
  · intro data hok hp hnull
    exact extract_ok env t data hok hp hnull

/-- Claim C8, witness: a reply parsing to the empty JSON object succeeds
with all four placeholders. -/
theorem c8_witness :
    extractMetadataAndInfo envC8ok "abc" =
      .ok { course := JsVal.str "Unknown Course",
            university := JsVal.str "Unknown University",
            country := JsVal.str "Unknown Country",
            courseInfo := JsVal.str "Info not available." } :=
  (c8_amended envC8ok "abc").2.2 (JsVal.obj []) rfl rfl (by intro h; cases h)

/-- Claim C9, confirmed: when a record names a resume file that cannot be
read (missing PDF or a parser error), the Content Fetcher returns `null`
without throwing, index.js logs its warning (`app.resumeFile &&
!resumeContent`), the record is processed exactly as if no resume had been
given — in particular the prompt built is the no-resume variant — and,
when the remaining steps succeed, the record is processed successfully
rather than marked failed. -/
theorem c9_confirmed (env : Env1) (fs : FS) (a : App) (f : String)
    (hf : a.resumeFile = some f) (hfne : f ≠ "")
    (hbad : env.resumeEnv = ResumeEnv.fileMissing ∨ env.resumeEnv = ResumeEnv.parseError) :
    readResumeContent env.resumeEnv a.resumeFile = none ∧
    pass1Warns env a = true ∧
    processApplication1 env fs a = processApplication1 env fs { a with resumeFile := none } ∧
    (∀ md : Metadata,
       buildSOPPrompt md (readResumeContent env.resumeEnv a.resumeFile) =
         buildSOPPrompt md none) ∧
    (pass1Skips a = false → jsStartsWith a.courseInput "http" = false →
     a.courseInput ≠ "" → env.geminiResult.isSome = true → env.writeOk = true →
     (pass1Step env fs a).processed = true) := by
  have h0 : readResumeContent env.resumeEnv a.resumeFile = none := by
    rw [hf]
    unfold readResumeContent
    dsimp only
    rw [if_neg hfne]
    rcases hbad with h | h <;> rw [h]
  refine ⟨h0, ?_, ?_, ?_, ?_⟩
  · unfold pass1Warns
    rw [h0, hf]
    simp [jsTruthyOpt, jsFalsyOpt, hfne]
  · simp only [processApplication1, h0]
    rfl
  · intro md
    rw [h0]
  · intro hskip hhttp hene hg hw
    obtain ⟨md, hmd⟩ := Option.isSome_iff_exists.mp hg
    have hproc : processApplication1 env fs a =
        some ((md.course, md.university,
               pathJoin promptsDirPath
                 (sanitizeFileName md.course ++ "_" ++
                  sanitizeFileName md.university ++ "_prompt.txt")),
              fsWrite fs
                (pathJoin promptsDirPath
                  (sanitizeFileName md.course ++ "_" ++
                   sanitizeFileName md.university ++ "_prompt.txt"))
                (buildSOPPrompt md (readResumeContent env.resumeEnv a.resumeFile))) := by
      unfold processApplication1
      rw [hhttp]
      simp only [Bool.false_eq_true, if_false, if_neg hene, hmd, hw, if_true]
    simp [pass1Step, hskip, hproc]

/-- Claim C9, witness: a concrete record naming a missing resume PDF is
warned about and still processed successfully. -/
theorem c9_witness :
    pass1Warns envC9 appC9 = true ∧ (pass1Step envC9 [] appC9).processed = true :=
  ⟨(c9_confirmed envC9 [] appC9 "resume1" rfl (by decide) (Or.inl rfl)).2.1,
   (c9_confirmed envC9 [] appC9 "resume1" rfl (by decide) (Or.inl rfl)).2.2.2.2
     rfl (by decide) (by decide) rfl rfl⟩

/-- The `||`-defaulting used by the extractor always yields a truthy value
when the default string is non-empty. -/
theorem jsTruthyVal_jsOrDefault (o : Option JsVal) (d : String) (hd : d ≠ "") :
    jsTruthyVal (jsOrDefault o d) = true := by
  cases o with
  | none => simp [jsOrDefault, jsTruthyVal, hd]
  | some x =>
    cases hx : jsTruthyVal x with
    | true => simp [jsOrDefault, hx]
    | false =>
      unfold jsOrDefault
      dsimp only
      rw [hx]
      simp [jsTruthyVal, hd]

/-- Claim C10, counterexample: a reply whose `courseName` is the JSON
number `42` (truthy, not a string) passes through the `||` defaulting
unchanged, so the returned `course` field is not a non-empty string —
refuting the claim that each of the four returned fields is a non-empty
string. -/
theorem c10_counterexample :
    extractMetadataAndInfo envC10 "t" = .ok infoC10 ∧
    infoC10.course = JsVal.num 42 ∧
    jsonNonemptyStr infoC10.course = false :=
  ⟨rfl, rfl, rfl⟩

/-- Claim C10, amended: on every successful extraction each of the four
returned fields is a truthy JSON value — never absent, `null`, `false`,
zero or the empty string — because a missing field defaults to its
placeholder string and a falsy field is replaced by it; a truthy non-string
value, however, passes through unchanged. -/
theorem c10_amended (env : ExtractEnv) (t : String) (info : ExtractedInfo)
    (h : extractMetadataAndInfo env t = .ok info) :
    (jsTruthyVal info.course = true ∧ jsTruthyVal info.university = true ∧
     jsTruthyVal info.country = true ∧ jsTruthyVal info.courseInfo = true) ∧
    (∀ d : String, jsOrDefault none d = JsVal.str d) ∧
    (∀ (v : JsVal) (d : String), jsTruthyVal v = false →
       jsOrDefault (some v) d = JsVal.str d) := by
  refine ⟨?_, fun d => rfl, ?_⟩
  · cases hok : env.httpOk with
    | false => simp [extractMetadataAndInfo, hok] at h
    | true =>
      cases hp : env.parse (cleanedJson (env.rawText.getD "")) with
      | none => simp [extractMetadataAndInfo, hok, hp] at h
      | some v =>
        by_cases hnull : v = JsVal.null
        · subst hnull
          simp [extractMetadataAndInfo, hok, hp] at h
        · have h2 := extract_ok env t v hok hp hnull
          rw [h2] at h
          injection h with h
          subst h
          exact ⟨jsTruthyVal_jsOrDefault _ _ (by decide),
                 jsTruthyVal_jsOrDefault _ _ (by decide),
                 jsTruthyVal_jsOrDefault _ _ (by decide),
                 jsTruthyVal_jsOrDefault _ _ (by decide)⟩
  · intro v d hv
    simp [jsOrDefault, hv]

/-- Claim C10, witness: the empty-object reply yields the four placeholder
strings, all truthy. -/
theorem c10_witness :
    jsTruthyVal (JsVal.str "Unknown Course") = true ∧
    jsTruthyVal (JsVal.str "Unknown University") = true ∧
    jsTruthyVal (JsVal.str "Unknown Country") = true ∧
    jsTruthyVal (JsVal.str "Info not available.") = true :=
  (c10_amended envC10w "t"
    ⟨JsVal.str "Unknown Course", JsVal.str "Unknown University",
     JsVal.str "Unknown Country", JsVal.str "Info not available."⟩ rfl).1
